import Mathlib

/-!
Verification of the trustbloc-did-method operation engine and CLI against its
natural-language specification.

The repository contains, under source control here, the engine's unit tests
(pkg/did/client_test.go), the update-did CLI command
(cmd/did-method-cli/updatedidcmd/updatedid.go) and BDD step definitions.
The engine itself (pkg/did/client.go) is not among the given sources, so
components of the engine are modelled from the spec, with every behaviour
that the engine's unit tests pin taken from those tests; each such
definition says so in its doc comment.  The update-did CLI definitions are
translated directly from cmd/did-method-cli/updatedidcmd/updatedid.go.

Errors are modelled as strings carrying the exact Go error messages: the Go
code distinguishes the spec's error kinds only by message text, and the unit
tests check membership of substrings in those messages.
-/

namespace TrustBloc

/-- Character-list version of substring search: `hasRunAt needle hay` is true
when `needle` occurs at the head of `hay`. -/
def hasRunAt : List Char → List Char → Bool
  | [], _ => true
  | _ :: _, [] => false
  | a :: as, b :: bs => a = b && hasRunAt as bs

/-- `containsSeq needle hay` is true when `needle` occurs contiguously
somewhere in `hay`. -/
def containsSeq (needle : List Char) : List Char → Bool
  | [] => hasRunAt needle []
  | b :: bs => hasRunAt needle (b :: bs) || containsSeq needle bs

/-- `strContains hay needle`: the string `needle` occurs as a contiguous
substring of `hay`.  Mirrors Go's `strings.Contains`, which the unit tests
use through `require.Contains`. -/
def strContains (hay needle : String) : Bool :=
  containsSeq needle.toList hay.toList

/-- The segment of a character list after its last `':'`, if the list has
one.  Mirrors `strings.LastIndex(didURI, ":")` followed by slicing. -/
def lastColonSplit : List Char → Option (List Char)
  | [] => none
  | c :: rest =>
    match lastColonSplit rest with
    | some s => some s
    | none => if c = ':' then some rest else none

/-- Modelled from the spec: `getUniqueSuffix` of pkg/did/client.go is not
among the given sources.  Spec §3 "DID URI": the unique suffix is the last
colon-separated segment and must be present; its absence is a fatal error
for update/recover/deactivate.  The error message is pinned by the unit
tests ("unique suffix not provided in id"). -/
def getUniqueSuffix (did : String) : Except String String :=
  match lastColonSplit did.toList with
  | some s => .ok (String.mk s)
  | none => .error "unique suffix not provided in id"

/-- A Sidetree endpoint (pkg/vdri/trustbloc/models.Endpoint). -/
structure Endpoint where
  URL : String
deriving DecidableEq

/-- Sidetree node configuration (pkg/vdri/trustbloc/models.SidetreeConfig). -/
structure SidetreeConfig where
  MultiHashAlgorithm : Nat
deriving DecidableEq

/-- A JSON Web Key as the codec sees it after a successful parse. -/
structure Jwk where
  kty : String
  crv : String
  x : List Nat
  y : List Nat
deriving DecidableEq

/-- A caller-supplied crypto key value, as the Go engine's `interface{}`
arguments discriminate it by dynamic type: Ed25519 public/private keys,
ECDSA public/private keys on a named curve, plain strings (the tests pass
"www" and "wrongkey"), and untyped raw byte slices (the tests pass
[]byte("wrong")). -/
inductive CryptoKey
  | ed25519Pub (bytes : List Nat)
  | ed25519Priv (bytes : List Nat)
  | ecPub (curve : String) (x y : List Nat)
  | ecPriv (curve : String)
  | str (s : String)
  | raw (bytes : List Nat)
deriving DecidableEq

/-- The value of a caller-supplied public key descriptor: either raw key
bytes, or an already-formed JWK document (the Go code stores both as
`[]byte` and discriminates by attempting a JWK parse; this type records the
outcome of that parse attempt). -/
inductive KeyValue
  | rawBytes (b : List Nat)
  | jwkDoc (j : Jwk)
deriving DecidableEq

/-- Caller-facing public key descriptor (pkg/did/doc.PublicKey).  The Go
field `Type` is rendered `Typ` because `Type` is a Lean keyword. -/
structure PublicKey where
  ID : String
  Typ : String
  Encoding : String
  KeyType : String
  Value : KeyValue
  Purposes : List String
deriving DecidableEq

/-- Service descriptor (the subset of fields the engine passes through).
The Go field `Type` is rendered `Typ` because `Type` is a Lean keyword. -/
structure Service where
  ID : String
  Typ : String
  ServiceEndpoint : String
deriving DecidableEq

/-- A parsed DID document: its id and its `@context` list.  Parsing a
DID-document JSON fails when the `@context` is absent, which is what the
unit test "test failed to parse did" exercises with `did.Doc{ID: "did1"}`. -/
structure DidDoc where
  id : String
  context : List String
deriving DecidableEq

/-- Key-type tag constants of pkg/did/doc. -/
def Ed25519KeyType : String := "Ed25519"

/-- Key-type tag for P-256 keys (doc.P256KeyType). -/
def P256KeyType : String := "P256"

/-- Encoding tag constant doc.PublicKeyEncodingJwk. -/
def PublicKeyEncodingJwk : String := "Jwk"

/-- Modelled from the spec: the engine's conversion of a caller-supplied
`crypto.PublicKey` to a JWK (pkg/did/client.go) is not among the given
sources.  Spec §4.1: Ed25519 keys map to an OKP/Ed25519 JWK; P-256 keys map
to an EC/P-256 JWK; any other curve or key type fails.  The unit tests pin
that an untyped byte slice or a plain string is not convertible (tests
"failed to get next update key", "failed to get recovery key"). -/
def pubKeyToJwk : CryptoKey → Except String Jwk
  | .ed25519Pub b => .ok ⟨"OKP", "Ed25519", b, []⟩
  | .ecPub crv x y =>
    if crv = "P-256" then .ok ⟨"EC", "P-256", x, y⟩
    else .error "unsupported curve"
  | _ => .error "key not supported"

/-- Modelled from the spec: the signer construction of pkg/did/client.go is
not among the given sources.  Spec §4.5/§8: signature `alg` is `EdDSA` for
an Ed25519 private key and `ES256` for a P-256 private key; any other
signing key is rejected.  The rejection message is pinned by the unit tests
("key not supported"). -/
def signerAlg : CryptoKey → Except String String
  | .ed25519Priv _ => .ok "EdDSA"
  | .ecPriv crv =>
    if crv = "P-256" then .ok "ES256" else .error "key not supported"
  | _ => .error "key not supported"

/-- Modelled from the spec: `unwrapPubKeyJWK` of pkg/did/client.go is not
among the given sources.  Spec §4.1 says the codec unwraps a descriptor
value that parses as a JWK and passes raw bytes through unchanged.  The
unit test Test_unwrapPubKeyJWK pins the handling of the parsed key: an
OKP/Ed25519 JWK is unwrapped to its raw x material, while any other parsed
key type — including an EC/P-256 JWK — is rejected with
"unsupported PublicKey source key type". -/
def unwrapPubKeyJWK (key : PublicKey) : Except String PublicKey :=
  match key.Value with
  | .rawBytes _ => .ok key
  | .jwkDoc j =>
    if j.kty = "OKP" && j.crv = "Ed25519" then
      .ok { key with Value := .rawBytes j.x }
    else
      .error "unsupported PublicKey source key type"

/-- Modelled from the spec: the per-descriptor processing done while the
engine builds a DID document (pkg/did/client.go) is not among the given
sources.  Pinned by the unit tests: the value is first unwrapped by
`unwrapPubKeyJWK`; the encoding tag must be `Jwk`
("public key encoding not supported"); the key-type tag must be Ed25519 or
P256 ("invalid key type: ..."); a P256 raw value must be an uncompressed
point encoding, 65 bytes starting with 0x04 ("invalid EC key"). -/
def processPublicKey (k : PublicKey) : Except String Unit :=
  match unwrapPubKeyJWK k with
  | .error e => .error e
  | .ok k2 =>
    if k2.Encoding ≠ PublicKeyEncodingJwk then
      .error "public key encoding not supported"
    else if k2.KeyType = Ed25519KeyType then .ok ()
    else if k2.KeyType = P256KeyType then
      match k2.Value with
      | .rawBytes b =>
        if b.length = 65 && b.headI = 4 then .ok () else .error "invalid EC key"
      | .jwkDoc _ => .error "invalid EC key"
    else .error ("invalid key type: " ++ k2.KeyType)

/-- Fold `processPublicKey` over a descriptor list, stopping at the first
error. -/
def processPublicKeys : List PublicKey → Except String Unit
  | [] => .ok ()
  | k :: rest =>
    match processPublicKey k with
    | .error e => .error e
    | .ok _ => processPublicKeys rest

/-- Modelled from the spec: pkg/vdri/trustbloc/endpoint.NewService is not
among the given sources.  Spec §4.6 steps 3–5: call Discovery with the
domain, propagating its error unchanged; pass the candidates to Selection,
propagating its error unchanged; fail with NoEndpoints when the final list
is empty.  The NoEndpoints message is pinned by the unit tests
("list of endpoints is empty"). -/
def NewService (discover : String → Except String (List Endpoint))
    (select : String → List Endpoint → Except String (List Endpoint)) :
    String → Except String (List Endpoint) :=
  fun domain =>
    match discover domain with
    | .error e => .error e
    | .ok candidates =>
      match select domain candidates with
      | .error e => .error e
      | .ok selected =>
        if selected = [] then .error "list of endpoints is empty"
        else .ok selected

/-- The operation-type tag of a Sidetree request. -/
inductive OpType
  | create
  | update
  | recover
  | deactivate
deriving DecidableEq

/-- A create response body: empty, a bare DID-document JSON, or a
DID-resolution envelope wrapping a DID document. -/
inductive ResponseBody
  | empty
  | plain (d : DidDoc)
  | resolution (ctx : String) (d : DidDoc)
deriving DecidableEq

/-- Parse a DID-document JSON: fails when the document carries no
`@context` (aries `did.ParseDocument` behaviour, pinned by the unit test
"test failed to parse did"). -/
def parseDidDoc (d : DidDoc) : Except String DidDoc :=
  if d.context = [] then .error "failed to parse public DID document"
  else .ok d

/-- Modelled from the spec: the create-response handling of
pkg/did/client.go is not among the given sources.  Spec §6: the response is
either a bare DID-document JSON or a DID-resolution envelope whose
`didDocument` field carries the document; in the envelope case the embedded
document is parsed, otherwise the whole body is. -/
def parseCreateResponse : ResponseBody → Except String DidDoc
  | .empty => .error "failed to parse public DID document"
  | .plain d => parseDidDoc d
  | .resolution _ d => parseDidDoc d

/-- The engine with its injected collaborators: the endpoint service
(Discovery then Selection, or a mock), the sidetree-config service, and the
HTTP transport, abstracted as a function from endpoint URL and operation
type to a response body or a transport/HTTP error. -/
structure Client where
  getEndpoints : String → Except String (List Endpoint)
  getSidetreeConfig : String → Except String SidetreeConfig
  sendResult : String → OpType → Except String ResponseBody

/-- Modelled from the spec: spec §4.6 step 1 — when the caller supplied one
or more explicit endpoints they are returned unchanged and the endpoint
service is never consulted; otherwise the endpoint service is asked for the
domain's endpoints. -/
def resolveEndpoints (getEps : String → Except String (List Endpoint))
    (domain : String) (overrides : List Endpoint) :
    Except String (List Endpoint) :=
  match overrides with
  | [] => getEps domain
  | o => .ok o

/-- One submission attempt per endpoint, in order, until one succeeds
(spec §4.7), over the transport function `post` (the client's
`sendResult`).  Returns the outcome and the trace of requests actually
sent, as (URL, operation-type) pairs; a failure message is wrapped with the
operation-specific sentence `wrap`. -/
def trySend (post : String → OpType → Except String ResponseBody)
    (op : OpType) (wrap : String) :
    List Endpoint → Except String ResponseBody × List (String × OpType)
  | [] => (.error wrap, [])
  | e :: rest =>
    match post e.URL op with
    | .ok b => (.ok b, [(e.URL, op)])
    | .error m =>
      match rest with
      | [] => (.error (wrap ++ ": " ++ m), [(e.URL, op)])
      | r :: rs =>
        let t := trySend post op wrap (r :: rs)
        (t.1, (e.URL, op) :: t.2)

/-- Options of DeactivateDID (pkg/did/option/deactivate). -/
structure DeactivateDIDOpts where
  signingKey : Option CryptoKey
  signingKeyID : String
  sidetreeEndpoints : List Endpoint

/-- Options of UpdateDID (pkg/did/option/update). -/
structure UpdateDIDOpts where
  addPublicKeys : List PublicKey
  addServices : List Service
  removePublicKeys : List String
  removeServices : List String
  signingKey : Option CryptoKey
  signingKeyID : String
  nextUpdatePublicKey : Option CryptoKey
  sidetreeEndpoints : List Endpoint

/-- Options of RecoverDID (pkg/did/option/recovery). -/
structure RecoverDIDOpts where
  publicKeys : List PublicKey
  services : List Service
  signingKey : Option CryptoKey
  signingKeyID : String
  nextUpdatePublicKey : Option CryptoKey
  nextRecoveryPublicKey : Option CryptoKey
  sidetreeEndpoints : List Endpoint

/-- Options of CreateDID (pkg/did/option/create). -/
structure CreateDIDOpts where
  publicKeys : List PublicKey
  services : List Service
  updatePublicKey : Option CryptoKey
  recoveryPublicKey : Option CryptoKey
  sidetreeEndpoints : List Endpoint

/-- The URL the sidetree-config fetch is addressed to: the first resolved
endpoint (spec §9 note 2: the design picks the first-used endpoint's
code). -/
def configTarget : List Endpoint → String
  | [] => ""
  | e :: _ => e.URL

/-- Modelled from the spec: Client.DeactivateDID of pkg/did/client.go is not
among the given sources.  Stage order per spec §4.8: domain-or-endpoint
presence, required keys, unique suffix, endpoint resolution (no
sidetree-config fetch for deactivate), key classification, then payload,
signature and send.  Error messages pinned by TestClient_DeactivateDID:
"domain is empty", "signing key is required",
"unique suffix not provided in id", "key not supported",
"failed to send deactivate sidetree request".  Returns the outcome and the
trace of requests sent. -/
def deactivateDID (c : Client) (didURI domain : String)
    (opts : DeactivateDIDOpts) :
    Except String Unit × List (String × OpType) :=
  if domain = "" ∧ opts.sidetreeEndpoints = [] then
    (.error "domain is empty", [])
  else
    match opts.signingKey with
    | none => (.error "signing key is required", [])
    | some sk =>
      match getUniqueSuffix didURI with
      | .error e => (.error e, [])
      | .ok _ =>
        match resolveEndpoints c.getEndpoints domain opts.sidetreeEndpoints with
        | .error e => (.error e, [])
        | .ok eps =>
          match signerAlg sk with
          | .error e => (.error e, [])
          | .ok _ =>
            match trySend c.sendResult .deactivate
                "failed to send deactivate sidetree request" eps with
            | (.ok _, t) => (.ok (), t)
            | (.error e, t) => (.error e, t)

/-- Modelled from the spec: Client.UpdateDID of pkg/did/client.go is not
among the given sources.  Stage order per spec §4.8: domain-or-endpoint
presence, required keys (signing key then next-update key), unique suffix,
endpoint resolution, sidetree-config fetch, key classification (next-update
key conversion, signer classification, added-key descriptors), then send.
Error messages pinned by TestClient_UpdateDID. -/
def updateDID (c : Client) (didURI domain : String) (opts : UpdateDIDOpts) :
    Except String Unit × List (String × OpType) :=
  if domain = "" ∧ opts.sidetreeEndpoints = [] then
    (.error "domain is empty", [])
  else
    match opts.signingKey with
    | none => (.error "signing public key is required", [])
    | some sk =>
      match opts.nextUpdatePublicKey with
      | none => (.error "next update public key is required", [])
      | some nk =>
        match getUniqueSuffix didURI with
        | .error e => (.error e, [])
        | .ok _ =>
          match resolveEndpoints c.getEndpoints domain opts.sidetreeEndpoints with
          | .error e => (.error e, [])
          | .ok eps =>
            match c.getSidetreeConfig (configTarget eps) with
            | .error e => (.error e, [])
            | .ok _ =>
              match pubKeyToJwk nk with
              | .error _ => (.error "failed to get next update key", [])
              | .ok _ =>
                match signerAlg sk with
                | .error e => (.error e, [])
                | .ok _ =>
                  match processPublicKeys opts.addPublicKeys with
                  | .error e => (.error e, [])
                  | .ok _ =>
                    match trySend c.sendResult .update
                        "failed to send update sidetree request" eps with
                    | (.ok _, t) => (.ok (), t)
                    | (.error e, t) => (.error e, t)

/-- Modelled from the spec: Client.RecoverDID of pkg/did/client.go is not
among the given sources.  Stage order per spec §4.8; the required-key
checks run next-recovery key, then next-update key, then signing key, as
pinned by TestClient_RecoverDID.  Error messages pinned by the same
tests. -/
def recoverDID (c : Client) (didURI domain : String) (opts : RecoverDIDOpts) :
    Except String Unit × List (String × OpType) :=
  if domain = "" ∧ opts.sidetreeEndpoints = [] then
    (.error "domain is empty", [])
  else
    match opts.nextRecoveryPublicKey with
    | none => (.error "next recovery public key is required", [])
    | some rk =>
      match opts.nextUpdatePublicKey with
      | none => (.error "next update public key is required", [])
      | some nk =>
        match opts.signingKey with
        | none => (.error "signing key is required", [])
        | some sk =>
          match getUniqueSuffix didURI with
          | .error e => (.error e, [])
          | .ok _ =>
            match resolveEndpoints c.getEndpoints domain opts.sidetreeEndpoints with
            | .error e => (.error e, [])
            | .ok eps =>
              match c.getSidetreeConfig (configTarget eps) with
              | .error e => (.error e, [])
              | .ok _ =>
                match pubKeyToJwk rk with
                | .error _ => (.error "failed to get next recovery key", [])
                | .ok _ =>
                  match pubKeyToJwk nk with
                  | .error _ => (.error "failed to get next update key", [])
                  | .ok _ =>
                    match signerAlg sk with
                    | .error e => (.error e, [])
                    | .ok _ =>
                      match processPublicKeys opts.publicKeys with
                      | .error e => (.error e, [])
                      | .ok _ =>
                        match trySend c.sendResult .recover
                            "failed to send recover sidetree request" eps with
                        | (.ok _, t) => (.ok (), t)
                        | (.error e, t) => (.error e, t)

/-- Modelled from the spec: Client.CreateDID of pkg/did/client.go is not
among the given sources.  Stage order per spec §4.8 (no unique-suffix stage
for create): domain-or-endpoint presence, required keys (recovery key then
update key), endpoint resolution, sidetree-config fetch, key classification
(recovery key conversion, update key conversion, descriptor processing),
send, then response parsing.  Error messages pinned by
TestClient_CreateDID. -/
def createDID (c : Client) (domain : String) (opts : CreateDIDOpts) :
    Except String DidDoc × List (String × OpType) :=
  if domain = "" ∧ opts.sidetreeEndpoints = [] then
    (.error "domain is empty", [])
  else
    match opts.recoveryPublicKey with
    | none => (.error "recovery public key is required", [])
    | some rk =>
      match opts.updatePublicKey with
      | none => (.error "update public key is required", [])
      | some uk =>
        match resolveEndpoints c.getEndpoints domain opts.sidetreeEndpoints with
        | .error e => (.error e, [])
        | .ok eps =>
          match c.getSidetreeConfig (configTarget eps) with
          | .error e => (.error e, [])
          | .ok _ =>
            match pubKeyToJwk rk with
            | .error _ => (.error "failed to get recovery key", [])
            | .ok _ =>
              match pubKeyToJwk uk with
              | .error _ => (.error "failed to get update key", [])
              | .ok _ =>
                match processPublicKeys opts.publicKeys with
                | .error e => (.error e, [])
                | .ok _ =>
                  match trySend c.sendResult .create
                      "failed to send request" eps with
                  | (.error e, t) => (.error e, t)
                  | (.ok body, t) =>
                    match parseCreateResponse body with
                    | .error e => (.error e, t)
                    | .ok d => (.ok d, t)

/-! ### The update-did CLI command

Translated from cmd/did-method-cli/updatedidcmd/updatedid.go, which is among
the given sources.  Flag/environment resolution (`cmdutils.GetUserSetVarFromString`)
is abstracted to the resolved string value of each flag; the file-system and
PEM-decoding collaborators are abstracted to injected loading functions, as
they are out of scope per spec §1. -/

/-- Where a key comes from: the inline PEM flag or the key-file flag. -/
inductive KeySource
  | inline (pem : String)
  | file (path : String)
deriving DecidableEq

/-- Flag name constant signingKeyFlagName of updatedid.go. -/
def signingKeyFlagName : String := "signingkey"

/-- Flag name constant signingKeyFileFlagName of updatedid.go. -/
def signingKeyFileFlagName : String := "signingkey-file"

/-- Flag name constant nextUpdateKeyFlagName of updatedid.go. -/
def nextUpdateKeyFlagName : String := "nextupdatekey"

/-- Flag name constant nextUpdateKeyFileFlagName of updatedid.go. -/
def nextUpdateKeyFileFlagName : String := "nextupdatekey-file"

/-- `getKey` of updatedid.go (lines 305–370), over the resolved values of
the inline-key flag and the key-file flag.  Exactly one of the two must be
non-empty; otherwise an error naming both flags is returned.  The actual
PEM loading (file or inline, private or public) is the injected `load`. -/
def getKey (load : KeySource → Except String CryptoKey)
    (keyString keyFile keyFlagName keyFileFlagName : String) :
    Except String CryptoKey :=
  if keyString = "" ∧ keyFile = "" then
    .error ("either key (--" ++ keyFlagName ++ ") or key file (--" ++
      keyFileFlagName ++ ") is required")
  else if keyString ≠ "" ∧ keyFile ≠ "" then
    .error ("only one of key (--" ++ keyFlagName ++ ") or key file (--" ++
      keyFileFlagName ++ ") may be specified")
  else if keyFile ≠ "" then load (.file keyFile)
  else load (.inline keyString)

/-- The resolved string values of the update-did command's key flags. -/
structure UpdateCmdFlags where
  signingKey : String
  signingKeyFile : String
  nextUpdateKey : String
  nextUpdateKeyFile : String

/-- The CLI command's collaborators outside the option-parsing logic:
PEM/file loading for the signing (private) and next-update (public) keys,
and the outcomes of `getPublicKeys`, `getServices`, `getSidetreeURL`,
`getRemovePublicKeyID` and `getRemoveServiceID`, which only read files and
other flags. -/
structure CmdEnv where
  loadSigningKey : KeySource → Except String CryptoKey
  loadNextUpdateKey : KeySource → Except String CryptoKey
  publicKeysResult : Except String (List PublicKey)
  servicesResult : Except String (List Service)
  sidetreeURLs : List Endpoint
  removePublicKeyIDs : List String
  removeServiceIDs : List String

/-- `updateDIDOption` of updatedid.go (lines 190–241): public keys first,
then the signing key via `getKey`, then the next-update key via `getKey`,
then services, sidetree URLs and removal id lists; the first error is
returned and ends option parsing. -/
def updateDIDOption (env : CmdEnv) (f : UpdateCmdFlags) :
    Except String UpdateDIDOpts :=
  match env.publicKeysResult with
  | .error e => .error e
  | .ok pks =>
    match getKey env.loadSigningKey f.signingKey f.signingKeyFile
        signingKeyFlagName signingKeyFileFlagName with
    | .error e => .error e
    | .ok sk =>
      match getKey env.loadNextUpdateKey f.nextUpdateKey f.nextUpdateKeyFile
          nextUpdateKeyFlagName nextUpdateKeyFileFlagName with
      | .error e => .error e
      | .ok nk =>
        match env.servicesResult with
        | .error e => .error e
        | .ok svcs =>
          .ok { addPublicKeys := pks, addServices := svcs,
                removePublicKeys := env.removePublicKeyIDs,
                removeServices := env.removeServiceIDs,
                signingKey := some sk, signingKeyID := "",
                nextUpdatePublicKey := some nk,
                sidetreeEndpoints := env.sidetreeURLs }

/-- The RunE body of `updateDIDCmd` of updatedid.go (lines 125–172): build
the options via `updateDIDOption`; on error return it without invoking the
engine; otherwise invoke the engine's UpdateDID.  The trace records the
Sidetree requests sent, so an empty trace on the error path witnesses that
the engine was never reached. -/
def updateDIDCmdRun (env : CmdEnv) (f : UpdateCmdFlags) (c : Client)
    (didURI domain : String) :
    Except String Unit × List (String × OpType) :=
  match updateDIDOption env f with
  | .error e => (.error e, [])
  | .ok opts => updateDID c didURI domain opts

/-- The mock wiring the unit tests use: an endpoint service returning one
endpoint "url", a config service returning multihash algorithm 18, and a
transport that accepts every request with an empty body. -/
def mockClient : Client :=
  ⟨fun _ => .ok [⟨"url"⟩], fun _ => .ok ⟨18⟩, fun _ _ => .ok .empty⟩

/-! ### Shared lemmas -/

lemma lastColonSplit_eq_none {l : List Char} (h : ':' ∉ l) :
    lastColonSplit l = none := by
  induction l with
  | nil => rfl
  | cons c rest ih =>
    have hc : c ≠ ':' := fun hc => h (hc ▸ List.mem_cons_self c rest)
    have hr : ':' ∉ rest := fun hm => h (List.mem_cons_of_mem c hm)
    simp [lastColonSplit, ih hr, hc]

lemma getUniqueSuffix_noColon {did : String} (h : ':' ∉ did.toList) :
    getUniqueSuffix did = .error "unique suffix not provided in id" := by
  simp only [String.toList] at h
  simp [getUniqueSuffix, lastColonSplit_eq_none h]

/-- A DID URI without a colon makes UpdateDID fail at the unique-suffix
stage, whatever the endpoint, config and transport collaborators do. -/
lemma updateDID_noSuffix (c : Client) (didURI domain : String)
    (hd : domain ≠ "") (hs : ':' ∉ didURI.toList)
    (aPK : List PublicKey) (aS : List Service) (rPK rS : List String)
    (sk nk : CryptoKey) (skid : String) :
    updateDID c didURI domain ⟨aPK, aS, rPK, rS, some sk, skid, some nk, []⟩ =
      (.error "unique suffix not provided in id", []) := by
  simp [updateDID, hd, getUniqueSuffix_noColon hs]

/-- A DID URI without a colon makes RecoverDID fail at the unique-suffix
stage, whatever the collaborators do. -/
lemma recoverDID_noSuffix (c : Client) (didURI domain : String)
    (hd : domain ≠ "") (hs : ':' ∉ didURI.toList)
    (pks : List PublicKey) (svcs : List Service)
    (sk nk rk : CryptoKey) (skid : String) :
    recoverDID c didURI domain
        ⟨pks, svcs, some sk, skid, some nk, some rk, []⟩ =
      (.error "unique suffix not provided in id", []) := by
  simp [recoverDID, hd, getUniqueSuffix_noColon hs]

/-- A DID URI without a colon makes DeactivateDID fail at the unique-suffix
stage, whatever the collaborators do. -/
lemma deactivateDID_noSuffix (c : Client) (didURI domain : String)
    (hd : domain ≠ "") (hs : ':' ∉ didURI.toList)
    (sk : CryptoKey) (skid : String) :
    deactivateDID c didURI domain ⟨some sk, skid, []⟩ =
      (.error "unique suffix not provided in id", []) := by
  simp [deactivateDID, hd, getUniqueSuffix_noColon hs]

/-- An endpoint-service error is returned unchanged by UpdateDID, whatever
the config service would do. -/
lemma updateDID_eps_error (geps : String → Except String (List Endpoint))
    (gcfg : String → Except String SidetreeConfig)
    (send : String → OpType → Except String ResponseBody)
    (didURI domain u m : String)
    (hd : domain ≠ "") (hu : getUniqueSuffix didURI = .ok u)
    (hm : geps domain = .error m)
    (aPK : List PublicKey) (aS : List Service) (rPK rS : List String)
    (sk nk : CryptoKey) (skid : String) :
    updateDID ⟨geps, gcfg, send⟩ didURI domain
      ⟨aPK, aS, rPK, rS, some sk, skid, some nk, []⟩ = (.error m, []) := by
  simp only [updateDID, resolveEndpoints]
  rw [if_neg (by simp [hd])]
  simp [hu, hm]

/-- An endpoint-service error is returned unchanged by RecoverDID. -/
lemma recoverDID_eps_error (geps : String → Except String (List Endpoint))
    (gcfg : String → Except String SidetreeConfig)
    (send : String → OpType → Except String ResponseBody)
    (didURI domain u m : String)
    (hd : domain ≠ "") (hu : getUniqueSuffix didURI = .ok u)
    (hm : geps domain = .error m)
    (pks : List PublicKey) (svcs : List Service)
    (sk nk rk : CryptoKey) (skid : String) :
    recoverDID ⟨geps, gcfg, send⟩ didURI domain
      ⟨pks, svcs, some sk, skid, some nk, some rk, []⟩ = (.error m, []) := by
  simp only [recoverDID, resolveEndpoints]
  rw [if_neg (by simp [hd])]
  simp [hu, hm]

/-- An endpoint-service error is returned unchanged by DeactivateDID. -/
lemma deactivateDID_eps_error (geps : String → Except String (List Endpoint))
    (gcfg : String → Except String SidetreeConfig)
    (send : String → OpType → Except String ResponseBody)
    (didURI domain u m : String)
    (hd : domain ≠ "") (hu : getUniqueSuffix didURI = .ok u)
    (hm : geps domain = .error m)
    (sk : CryptoKey) (skid : String) :
    deactivateDID ⟨geps, gcfg, send⟩ didURI domain ⟨some sk, skid, []⟩ =
      (.error m, []) := by
  simp only [deactivateDID, resolveEndpoints]
  rw [if_neg (by simp [hd])]
  simp [hu, hm]

/-- An endpoint-service error is returned unchanged by CreateDID. -/
lemma createDID_eps_error (geps : String → Except String (List Endpoint))
    (gcfg : String → Except String SidetreeConfig)
    (send : String → OpType → Except String ResponseBody)
    (domain m : String)
    (hd : domain ≠ "") (hm : geps domain = .error m)
    (pks : List PublicKey) (svcs : List Service) (uk rk : CryptoKey) :
    createDID ⟨geps, gcfg, send⟩ domain
      ⟨pks, svcs, some uk, some rk, []⟩ = (.error m, []) := by
  simp only [createDID, resolveEndpoints]
  rw [if_neg (by simp [hd])]
  simp [hm]

/-- NewService propagates a Discovery error unchanged (spec §4.6 step 3). -/
lemma newService_discovery_error
    (d : String → Except String (List Endpoint))
    (s : String → List Endpoint → Except String (List Endpoint))
    (domain m : String) (hm : d domain = .error m) :
    NewService d s domain = .error m := by
  simp [NewService, hm]

/-- NewService propagates a Selection error unchanged (spec §4.6 step 4). -/
lemma newService_selection_error
    (d : String → Except String (List Endpoint))
    (s : String → List Endpoint → Except String (List Endpoint))
    (domain m : String) (cands : List Endpoint)
    (hd : d domain = .ok cands) (hm : s domain cands = .error m) :
    NewService d s domain = .error m := by
  simp [NewService, hd, hm]

/-- NewService rejects an empty final list (spec §4.6 step 5), with the
message pinned by the unit tests. -/
lemma newService_empty_selection
    (d : String → Except String (List Endpoint))
    (s : String → List Endpoint → Except String (List Endpoint))
    (domain : String) (cands : List Endpoint)
    (hd : d domain = .ok cands) (hs : s domain cands = .ok []) :
    NewService d s domain = .error "list of endpoints is empty" := by
  simp [NewService, hd, hs]

/-! ### Claims -/

/-- C1 counterexample: the claim that the key codec accepts and unwraps a
caller-supplied JWK document with kty=EC and crv=P-256 is false.  At the
concrete descriptor of TestClient_RecoverDID "test error parse public key"
(an Ed25519-tagged descriptor whose value is an EC/P-256 JWK), the codec
returns the error "unsupported PublicKey source key type", and RecoverDID
with that descriptor fails with the same error instead of submitting, as
Test_unwrapPubKeyJWK "error unsupported type" also pins. -/
theorem C1_ec_jwk_rejected_counterexample :
    unwrapPubKeyJWK
        ⟨"key3", "", "Jwk", "Ed25519", .jwkDoc ⟨"EC", "P-256", [1], [2]⟩, []⟩ =
      .error "unsupported PublicKey source key type"
    ∧ recoverDID mockClient "did:ex:123" "testnet"
        ⟨[⟨"key3", "", "Jwk", "Ed25519", .jwkDoc ⟨"EC", "P-256", [1], [2]⟩, []⟩],
         [], some (.ecPriv "P-256"), "k1",
         some (.ed25519Pub [3]), some (.ed25519Pub [4]), []⟩ =
      (.error "unsupported PublicKey source key type", []) :=
  ⟨rfl, rfl⟩

/-- C1 (amended): the codec passes a raw-bytes value through unchanged and
unwraps an already-formed OKP/Ed25519 JWK document to its raw key material;
but a JWK document with kty=EC (in particular crv=P-256) is rejected with
"unsupported PublicKey source key type", so passing such a JWK as a public
key to CreateDID/UpdateDID/RecoverDID fails key classification. -/
theorem C1_unwrap_jwk_amended (ID Typ Enc KT : String) (Ps : List String)
    (j : Jwk) (b : List Nat) :
    (unwrapPubKeyJWK ⟨ID, Typ, Enc, KT, .rawBytes b, Ps⟩ =
        .ok ⟨ID, Typ, Enc, KT, .rawBytes b, Ps⟩)
    ∧ (j.kty = "OKP" → j.crv = "Ed25519" →
        unwrapPubKeyJWK ⟨ID, Typ, Enc, KT, .jwkDoc j, Ps⟩ =
          .ok ⟨ID, Typ, Enc, KT, .rawBytes j.x, Ps⟩)
    ∧ (j.kty = "EC" →
        unwrapPubKeyJWK ⟨ID, Typ, Enc, KT, .jwkDoc j, Ps⟩ =
          .error "unsupported PublicKey source key type") := by
  refine ⟨rfl, ?_, ?_⟩
  · intro hk hc
    simp [unwrapPubKeyJWK, hk, hc]
  · intro hk
    simp [unwrapPubKeyJWK, hk]

/-- C1 witness: the amended behaviour at concrete inputs. -/
theorem C1_unwrap_jwk_amended_witness :
    unwrapPubKeyJWK
        ⟨"key1", "", "Jwk", "Ed25519",
         .jwkDoc ⟨"OKP", "Ed25519", [5, 6], []⟩, []⟩ =
      .ok ⟨"key1", "", "Jwk", "Ed25519", .rawBytes [5, 6], []⟩
    ∧ unwrapPubKeyJWK
        ⟨"key1", "", "Jwk", "Ed25519",
         .jwkDoc ⟨"EC", "P-256", [5], [6]⟩, []⟩ =
      .error "unsupported PublicKey source key type" :=
  ⟨((C1_unwrap_jwk_amended "key1" "" "Jwk" "Ed25519" []
      ⟨"OKP", "Ed25519", [5, 6], []⟩ []).2.1 rfl rfl),
   ((C1_unwrap_jwk_amended "key1" "" "Jwk" "Ed25519" []
      ⟨"EC", "P-256", [5], [6]⟩ []).2.2 rfl)⟩

/-- C3: a successful create submission is accepted whether the response
body is a bare DID-document JSON or a DID-resolution envelope carrying a
`didDocument`; both parse to the same DID document, both at the response
parser and end-to-end through CreateDID, and neither form causes a
response-parse error. -/
theorem C3_create_response_both_forms (d : DidDoc) (ctx : String)
    (hctx : d.context ≠ []) :
    parseCreateResponse (.plain d) = .ok d
    ∧ parseCreateResponse (.resolution ctx d) = .ok d
    ∧ (∀ (geps : String → Except String (List Endpoint))
        (gcfg : String → Except String SidetreeConfig)
        (u domain : String) (cfg : SidetreeConfig) (rb ub : List Nat),
        gcfg u = .ok cfg →
        createDID ⟨geps, gcfg, fun _ _ => .ok (.plain d)⟩ domain
            ⟨[], [], some (.ed25519Pub ub), some (.ed25519Pub rb), [⟨u⟩]⟩ =
          (.ok d, [(u, .create)])
        ∧ createDID ⟨geps, gcfg, fun _ _ => .ok (.resolution ctx d)⟩ domain
            ⟨[], [], some (.ed25519Pub ub), some (.ed25519Pub rb), [⟨u⟩]⟩ =
          (.ok d, [(u, .create)])) := by
  refine ⟨by simp [parseCreateResponse, parseDidDoc, hctx],
    by simp [parseCreateResponse, parseDidDoc, hctx], ?_⟩
  intro geps gcfg u domain cfg rb ub hcfg
  constructor
  · simp [createDID, resolveEndpoints, configTarget, hcfg, pubKeyToJwk,
      processPublicKeys, trySend, parseCreateResponse, parseDidDoc, hctx]
  · simp [createDID, resolveEndpoints, configTarget, hcfg, pubKeyToJwk,
      processPublicKeys, trySend, parseCreateResponse, parseDidDoc, hctx]

/-- C3 witness: both response forms at a concrete document and client. -/
theorem C3_create_response_both_forms_witness :
    parseCreateResponse (.plain ⟨"did1", ["c"]⟩) = .ok ⟨"did1", ["c"]⟩
    ∧ createDID
        ⟨fun _ => .ok [⟨"url"⟩], fun _ => .ok ⟨18⟩,
         fun _ _ => .ok (.resolution "https://www.w3.org/ns/did-resolution/v1"
            ⟨"did1", ["c"]⟩)⟩
        "testnet"
        ⟨[], [], some (.ed25519Pub [1]), some (.ed25519Pub [2]), [⟨"u"⟩]⟩ =
      (.ok ⟨"did1", ["c"]⟩, [("u", .create)]) := by
  have h := C3_create_response_both_forms ⟨"did1", ["c"]⟩
    "https://www.w3.org/ns/did-resolution/v1" (by simp)
  exact ⟨h.1, (h.2.2 (fun _ => .ok [⟨"url"⟩]) (fun _ => .ok ⟨18⟩) "u"
    "testnet" ⟨18⟩ [2] [1] rfl).2⟩

/-- C4: when the caller supplies explicit sidetree endpoints, the endpoint
resolution stage returns exactly that list (same elements, same order) and
never consults the injected endpoint service — the result is identical for
any two services; and a deactivate operation with an override endpoint
succeeds even when the domain argument is the empty string. -/
theorem C4_override_endpoints_verbatim :
    (∀ (geps geps' : String → Except String (List Endpoint))
      (domain : String) (o : List Endpoint), o ≠ [] →
      resolveEndpoints geps domain o = .ok o
      ∧ resolveEndpoints geps domain o = resolveEndpoints geps' domain o)
    ∧ (∀ (geps : String → Except String (List Endpoint))
        (gcfg : String → Except String SidetreeConfig)
        (send : String → OpType → Except String ResponseBody)
        (e : Endpoint) (b : ResponseBody) (sk : CryptoKey) (skid alg : String),
        signerAlg sk = .ok alg → send e.URL .deactivate = .ok b →
        deactivateDID ⟨geps, gcfg, send⟩ "did:ex:123" "" ⟨some sk, skid, [e]⟩ =
          (.ok (), [(e.URL, .deactivate)])) := by
  constructor
  · intro geps geps' domain o ho
    cases o with
    | nil => exact absurd rfl ho
    | cons e es => exact ⟨rfl, rfl⟩
  · intro geps gcfg send e b sk skid alg halg hsend
    have h1 : getUniqueSuffix "did:ex:123" = .ok "123" := rfl
    simp [deactivateDID, resolveEndpoints, h1, halg, trySend, hsend]

/-- C4 witness: a concrete deactivate call with an override endpoint and
empty domain succeeds, and the override list is returned verbatim. -/
theorem C4_override_endpoints_verbatim_witness :
    resolveEndpoints (fun _ => .error "discover error") "" [⟨"a"⟩, ⟨"b"⟩] =
      .ok [⟨"a"⟩, ⟨"b"⟩]
    ∧ deactivateDID
        ⟨fun _ => .error "discover error", fun _ => .ok ⟨18⟩,
         fun _ _ => .ok .empty⟩
        "did:ex:123" "" ⟨some (.ed25519Priv [1]), "k1", [⟨"surl"⟩]⟩ =
      (.ok (), [("surl", .deactivate)]) :=
  ⟨(C4_override_endpoints_verbatim.1 (fun _ => .error "discover error")
      (fun _ => .ok []) "" [⟨"a"⟩, ⟨"b"⟩] (by simp)).1,
   C4_override_endpoints_verbatim.2 (fun _ => .error "discover error")
      (fun _ => .ok ⟨18⟩) (fun _ _ => .ok .empty) ⟨"surl"⟩ .empty
      (.ed25519Priv [1]) "k1" "EdDSA" rfl rfl⟩

/-- C5: every operation invoked with an empty domain and no caller-supplied
override endpoint fails with the DomainRequired error (message
"domain is empty", as the Go code and tests pin it) and no request is sent
(the request trace is empty), whatever keys are supplied and whatever the
collaborators would do. -/
theorem C5_domain_required (c : Client) (didURI : String)
    (osk ouk ork onk : Option CryptoKey) (skid : String)
    (aPK pks : List PublicKey) (aS svcs : List Service)
    (rPK rS : List String) :
    deactivateDID c didURI "" ⟨osk, skid, []⟩ = (.error "domain is empty", [])
    ∧ updateDID c didURI "" ⟨aPK, aS, rPK, rS, osk, skid, onk, []⟩ =
        (.error "domain is empty", [])
    ∧ recoverDID c didURI "" ⟨pks, svcs, osk, skid, onk, ork, []⟩ =
        (.error "domain is empty", [])
    ∧ createDID c "" ⟨pks, svcs, ouk, ork, []⟩ =
        (.error "domain is empty", []) :=
  ⟨rfl, rfl, rfl, rfl⟩

/-- C6: an update, recover or deactivate call whose DID URI contains no
colon (hence no colon-separated unique suffix, e.g. "wrong") fails with the
MalformedDid error "unique suffix not provided in id", whose message
contains "unique suffix not provided", whatever the collaborators do. -/
theorem C6_malformed_did (c : Client) (didURI domain : String)
    (hd : domain ≠ "") (hs : ':' ∉ didURI.toList)
    (aPK pks : List PublicKey) (aS svcs : List Service)
    (rPK rS : List String) (sk nk rk : CryptoKey) (skid : String) :
    updateDID c didURI domain ⟨aPK, aS, rPK, rS, some sk, skid, some nk, []⟩ =
      (.error "unique suffix not provided in id", [])
    ∧ recoverDID c didURI domain
        ⟨pks, svcs, some sk, skid, some nk, some rk, []⟩ =
      (.error "unique suffix not provided in id", [])
    ∧ deactivateDID c didURI domain ⟨some sk, skid, []⟩ =
      (.error "unique suffix not provided in id", [])
    ∧ strContains "unique suffix not provided in id"
        "unique suffix not provided" = true :=
  ⟨updateDID_noSuffix c didURI domain hd hs aPK aS rPK rS sk nk skid,
   recoverDID_noSuffix c didURI domain hd hs pks svcs sk nk rk skid,
   deactivateDID_noSuffix c didURI domain hd hs sk skid,
   rfl⟩

/-- C6 witness: the malformed DID "wrong" at a concrete client. -/
theorem C6_malformed_did_witness :
    updateDID mockClient "wrong" "testnet"
        ⟨[], [], [], [], some (.ed25519Priv [1]), "",
         some (.ed25519Pub [2]), []⟩ =
      (.error "unique suffix not provided in id", [])
    ∧ strContains "unique suffix not provided in id"
        "unique suffix not provided" = true :=
  ⟨(C6_malformed_did mockClient "wrong" "testnet" (by simp) (by decide)
      [] [] [] [] [] [] (.ed25519Priv [1]) (.ed25519Pub [2])
      (.ed25519Pub [3]) "").1,
   (C6_malformed_did mockClient "wrong" "testnet" (by simp) (by decide)
      [] [] [] [] [] [] (.ed25519Priv [1]) (.ed25519Pub [2])
      (.ed25519Pub [3]) "").2.2.2⟩

/-- C7: an update, recover or deactivate call whose signing key classifies
as neither Ed25519 nor P-256 (so the signer rejects it with
"key not supported", e.g. the plain string "www") fails with that error and
sends no request to any sidetree endpoint — the request trace is empty —
even though endpoints resolve and (for update/recover) the sidetree config
is fetched successfully. -/
theorem C7_unsupported_signing_key
    (geps : String → Except String (List Endpoint))
    (gcfg : String → Except String SidetreeConfig)
    (send : String → OpType → Except String ResponseBody)
    (didURI domain u : String) (eps : List Endpoint) (cfg : SidetreeConfig)
    (hd : domain ≠ "") (hu : getUniqueSuffix didURI = .ok u)
    (he : geps domain = .ok eps) (hc : gcfg (configTarget eps) = .ok cfg)
    (sk : CryptoKey) (hsk : signerAlg sk = .error "key not supported")
    (aS svcs : List Service) (rPK rS : List String)
    (skid : String) (nkb rkb : List Nat) :
    updateDID ⟨geps, gcfg, send⟩ didURI domain
        ⟨[], aS, rPK, rS, some sk, skid, some (.ed25519Pub nkb), []⟩ =
      (.error "key not supported", [])
    ∧ recoverDID ⟨geps, gcfg, send⟩ didURI domain
        ⟨[], svcs, some sk, skid, some (.ed25519Pub nkb),
         some (.ed25519Pub rkb), []⟩ =
      (.error "key not supported", [])
    ∧ deactivateDID ⟨geps, gcfg, send⟩ didURI domain ⟨some sk, skid, []⟩ =
      (.error "key not supported", []) := by
  refine ⟨?_, ?_, ?_⟩
  · simp only [updateDID, resolveEndpoints]
    rw [if_neg (by simp [hd])]
    simp [hu, he, hc, pubKeyToJwk, hsk, processPublicKeys]
  · simp only [recoverDID, resolveEndpoints]
    rw [if_neg (by simp [hd])]
    simp [hu, he, hc, pubKeyToJwk, hsk, processPublicKeys]
  · simp only [deactivateDID, resolveEndpoints]
    rw [if_neg (by simp [hd])]
    simp [hu, he, hsk]

/-- C7 witness: the signing key "www" at the unit tests' mock wiring. -/
theorem C7_unsupported_signing_key_witness :
    updateDID ⟨fun _ => .ok [⟨"url"⟩], fun _ => .ok ⟨18⟩, fun _ _ => .ok .empty⟩
        "did:ex:123" "testnet"
        ⟨[], [], [], [], some (.str "www"), "", some (.ed25519Pub [2]), []⟩ =
      (.error "key not supported", []) :=
  (C7_unsupported_signing_key (fun _ => .ok [⟨"url"⟩]) (fun _ => .ok ⟨18⟩)
    (fun _ _ => .ok .empty) "did:ex:123" "testnet" "123" [⟨"url"⟩] ⟨18⟩
    (by simp) rfl rfl rfl (.str "www") rfl [] [] [] [] "" [2] [3]).1

/-- C2: the validation stages of update/recover/deactivate run in the order
domain-or-endpoint presence, required keys, unique-suffix extraction,
endpoint resolution, sidetree-config fetch (not performed for deactivate),
key classification, then payload/signature/send.  Each conjunct shows an
earlier stage's error winning even when every later stage would also fail:
(1) empty domain beats missing keys and a malformed DID; (2) a missing key
beats a malformed DID; (3–5) a malformed DID beats endpoint resolution for
update, recover and deactivate — in particular, with a DID URI that has no
unique suffix AND an endpoint resolver that would fail, the MalformedDid
error is returned, not the endpoint error; (6) an endpoint error beats the
config fetch; (7) a config error beats key classification; (8) a
classification error beats sending, with an empty request trace; (9) the
deactivate pipeline never consults the config service at all. -/
theorem C2_validation_order :
    (∀ (c : Client) (didURI : String) (aPK : List PublicKey)
      (aS : List Service) (rPK rS : List String) (skid : String),
      updateDID c didURI "" ⟨aPK, aS, rPK, rS, none, skid, none, []⟩ =
        (.error "domain is empty", []))
    ∧ (∀ (c : Client) (didURI domain : String) (aPK : List PublicKey)
        (aS : List Service) (rPK rS : List String) (skid : String)
        (onk : Option CryptoKey), domain ≠ "" →
        updateDID c didURI domain ⟨aPK, aS, rPK, rS, none, skid, onk, []⟩ =
          (.error "signing public key is required", []))
    ∧ (∀ (c : Client) (didURI domain : String), domain ≠ "" →
        ':' ∉ didURI.toList →
        ∀ (aPK : List PublicKey) (aS : List Service) (rPK rS : List String)
          (sk nk : CryptoKey) (skid : String),
        updateDID c didURI domain
            ⟨aPK, aS, rPK, rS, some sk, skid, some nk, []⟩ =
          (.error "unique suffix not provided in id", []))
    ∧ (∀ (c : Client) (didURI domain : String), domain ≠ "" →
        ':' ∉ didURI.toList →
        ∀ (pks : List PublicKey) (svcs : List Service)
          (sk nk rk : CryptoKey) (skid : String),
        recoverDID c didURI domain
            ⟨pks, svcs, some sk, skid, some nk, some rk, []⟩ =
          (.error "unique suffix not provided in id", []))
    ∧ (∀ (c : Client) (didURI domain : String), domain ≠ "" →
        ':' ∉ didURI.toList → ∀ (sk : CryptoKey) (skid : String),
        deactivateDID c didURI domain ⟨some sk, skid, []⟩ =
          (.error "unique suffix not provided in id", []))
    ∧ (∀ (geps : String → Except String (List Endpoint))
        (gcfg : String → Except String SidetreeConfig)
        (send : String → OpType → Except String ResponseBody)
        (didURI domain u m : String), domain ≠ "" →
        getUniqueSuffix didURI = .ok u → geps domain = .error m →
        ∀ (aPK : List PublicKey) (aS : List Service) (rPK rS : List String)
          (sk nk : CryptoKey) (skid : String),
        updateDID ⟨geps, gcfg, send⟩ didURI domain
            ⟨aPK, aS, rPK, rS, some sk, skid, some nk, []⟩ = (.error m, []))
    ∧ (∀ (geps : String → Except String (List Endpoint))
        (gcfg : String → Except String SidetreeConfig)
        (send : String → OpType → Except String ResponseBody)
        (didURI domain u m : String) (eps : List Endpoint), domain ≠ "" →
        getUniqueSuffix didURI = .ok u → geps domain = .ok eps →
        gcfg (configTarget eps) = .error m →
        ∀ (aPK : List PublicKey) (aS : List Service) (rPK rS : List String)
          (skid : String) (s : String) (nkb : List Nat),
        updateDID ⟨geps, gcfg, send⟩ didURI domain
            ⟨aPK, aS, rPK, rS, some (.str s), skid,
             some (.ed25519Pub nkb), []⟩ = (.error m, []))
    ∧ (∀ (geps : String → Except String (List Endpoint))
        (gcfg : String → Except String SidetreeConfig)
        (send : String → OpType → Except String ResponseBody)
        (didURI domain u : String) (eps : List Endpoint)
        (cfg : SidetreeConfig), domain ≠ "" →
        getUniqueSuffix didURI = .ok u → geps domain = .ok eps →
        gcfg (configTarget eps) = .ok cfg →
        ∀ (aS : List Service) (rPK rS : List String) (skid : String)
          (s : String) (nkb : List Nat),
        updateDID ⟨geps, gcfg, send⟩ didURI domain
            ⟨[], aS, rPK, rS, some (.str s), skid,
             some (.ed25519Pub nkb), []⟩ =
          (.error "key not supported", []))
    ∧ (∀ (geps : String → Except String (List Endpoint))
        (gcfg gcfg' : String → Except String SidetreeConfig)
        (send : String → OpType → Except String ResponseBody)
        (didURI domain : String) (opts : DeactivateDIDOpts),
        deactivateDID ⟨geps, gcfg, send⟩ didURI domain opts =
          deactivateDID ⟨geps, gcfg', send⟩ didURI domain opts) := by
  refine ⟨?_, ?_, ?_, ?_, ?_, ?_, ?_, ?_, ?_⟩
  · intro c didURI aPK aS rPK rS skid
    rfl
  · intro c didURI domain aPK aS rPK rS skid onk hd
    simp [updateDID, hd]
  · intro c didURI domain hd hs aPK aS rPK rS sk nk skid
    exact updateDID_noSuffix c didURI domain hd hs aPK aS rPK rS sk nk skid
  · intro c didURI domain hd hs pks svcs sk nk rk skid
    exact recoverDID_noSuffix c didURI domain hd hs pks svcs sk nk rk skid
  · intro c didURI domain hd hs sk skid
    exact deactivateDID_noSuffix c didURI domain hd hs sk skid
  · intro geps gcfg send didURI domain u m hd hu hm aPK aS rPK rS sk nk skid
    exact updateDID_eps_error geps gcfg send didURI domain u m hd hu hm
      aPK aS rPK rS sk nk skid
  · intro geps gcfg send didURI domain u m eps hd hu he hc aPK aS rPK rS skid
      s nkb
    simp only [updateDID, resolveEndpoints]
    rw [if_neg (by simp [hd])]
    simp [hu, he, hc]
  · intro geps gcfg send didURI domain u eps cfg hd hu he hc aS rPK rS skid
      s nkb
    simp only [updateDID, resolveEndpoints]
    rw [if_neg (by simp [hd])]
    simp [hu, he, hc, pubKeyToJwk, signerAlg, processPublicKeys]
  · intro geps gcfg gcfg' send didURI domain opts
    simp only [deactivateDID]

/-- C2 witness: the "in particular" case at concrete inputs — the DID URI
"wrong" has no unique suffix and the endpoint service fails, and the error
returned is the MalformedDid one, not the endpoint error. -/
theorem C2_validation_order_witness :
    updateDID
        ⟨fun _ => .error "discover error", fun _ => .ok ⟨18⟩,
         fun _ _ => .ok .empty⟩
        "wrong" "testnet"
        ⟨[], [], [], [], some (.ed25519Priv [1]), "",
         some (.ed25519Pub [2]), []⟩ =
      (.error "unique suffix not provided in id", []) :=
  C2_validation_order.2.2.1
    ⟨fun _ => .error "discover error", fun _ => .ok ⟨18⟩,
     fun _ _ => .ok .empty⟩
    "wrong" "testnet" (by simp) (by decide) [] [] [] []
    (.ed25519Priv [1]) (.ed25519Pub [2]) ""

/-- C8: with no override endpoints, when the endpoint service is the
Discovery-then-Selection pipeline: if Discovery succeeds and Selection
returns an empty list, every operation fails with the NoEndpoints error
"list of endpoints is empty"; a Discovery error propagates unchanged; and a
Selection error propagates unchanged. -/
theorem C8_no_endpoints
    (d : String → Except String (List Endpoint))
    (s : String → List Endpoint → Except String (List Endpoint))
    (gcfg : String → Except String SidetreeConfig)
    (send : String → OpType → Except String ResponseBody)
    (domain didURI u m : String) (cands : List Endpoint)
    (hd : domain ≠ "") (hu : getUniqueSuffix didURI = .ok u)
    (aPK pks : List PublicKey) (aS svcs : List Service)
    (rPK rS : List String) (sk nk rk uk : CryptoKey) (skid : String) :
    (d domain = .ok cands → s domain cands = .ok [] →
      updateDID ⟨NewService d s, gcfg, send⟩ didURI domain
          ⟨aPK, aS, rPK, rS, some sk, skid, some nk, []⟩ =
        (.error "list of endpoints is empty", [])
      ∧ recoverDID ⟨NewService d s, gcfg, send⟩ didURI domain
          ⟨pks, svcs, some sk, skid, some nk, some rk, []⟩ =
        (.error "list of endpoints is empty", [])
      ∧ deactivateDID ⟨NewService d s, gcfg, send⟩ didURI domain
          ⟨some sk, skid, []⟩ =
        (.error "list of endpoints is empty", [])
      ∧ createDID ⟨NewService d s, gcfg, send⟩ domain
          ⟨pks, svcs, some uk, some rk, []⟩ =
        (.error "list of endpoints is empty", []))
    ∧ (d domain = .error m →
      updateDID ⟨NewService d s, gcfg, send⟩ didURI domain
          ⟨aPK, aS, rPK, rS, some sk, skid, some nk, []⟩ = (.error m, [])
      ∧ recoverDID ⟨NewService d s, gcfg, send⟩ didURI domain
          ⟨pks, svcs, some sk, skid, some nk, some rk, []⟩ = (.error m, [])
      ∧ deactivateDID ⟨NewService d s, gcfg, send⟩ didURI domain
          ⟨some sk, skid, []⟩ = (.error m, [])
      ∧ createDID ⟨NewService d s, gcfg, send⟩ domain
          ⟨pks, svcs, some uk, some rk, []⟩ = (.error m, []))
    ∧ (d domain = .ok cands → s domain cands = .error m →
      updateDID ⟨NewService d s, gcfg, send⟩ didURI domain
          ⟨aPK, aS, rPK, rS, some sk, skid, some nk, []⟩ = (.error m, [])
      ∧ recoverDID ⟨NewService d s, gcfg, send⟩ didURI domain
          ⟨pks, svcs, some sk, skid, some nk, some rk, []⟩ = (.error m, [])
      ∧ deactivateDID ⟨NewService d s, gcfg, send⟩ didURI domain
          ⟨some sk, skid, []⟩ = (.error m, [])
      ∧ createDID ⟨NewService d s, gcfg, send⟩ domain
          ⟨pks, svcs, some uk, some rk, []⟩ = (.error m, [])) := by
  refine ⟨?_, ?_, ?_⟩
  · intro h1 h2
    have hm := newService_empty_selection d s domain cands h1 h2
    exact ⟨updateDID_eps_error _ _ _ _ _ _ _ hd hu hm _ _ _ _ _ _ _,
      recoverDID_eps_error _ _ _ _ _ _ _ hd hu hm _ _ _ _ _ _,
      deactivateDID_eps_error _ _ _ _ _ _ _ hd hu hm _ _,
      createDID_eps_error _ _ _ _ _ hd hm _ _ _ _⟩
  · intro h1
    have hm := newService_discovery_error d s domain m h1
    exact ⟨updateDID_eps_error _ _ _ _ _ _ _ hd hu hm _ _ _ _ _ _ _,
      recoverDID_eps_error _ _ _ _ _ _ _ hd hu hm _ _ _ _ _ _,
      deactivateDID_eps_error _ _ _ _ _ _ _ hd hu hm _ _,
      createDID_eps_error _ _ _ _ _ hd hm _ _ _ _⟩
  · intro h1 h2
    have hm := newService_selection_error d s domain m cands h1 h2
    exact ⟨updateDID_eps_error _ _ _ _ _ _ _ hd hu hm _ _ _ _ _ _ _,
      recoverDID_eps_error _ _ _ _ _ _ _ hd hu hm _ _ _ _ _ _,
      deactivateDID_eps_error _ _ _ _ _ _ _ hd hu hm _ _,
      createDID_eps_error _ _ _ _ _ hd hm _ _ _ _⟩

/-- C8 witness: Discovery and Selection both return empty lists and UpdateDID
fails with "list of endpoints is empty" (the scenario of
TestClient_UpdateDID "test error from get endpoints"). -/
theorem C8_no_endpoints_witness :
    updateDID
        ⟨NewService (fun _ => .ok []) (fun _ _ => .ok []),
         fun _ => .ok ⟨18⟩, fun _ _ => .ok .empty⟩
        "did:ex:123" "testnet"
        ⟨[], [], [], [], some (.ed25519Priv [1]), "",
         some (.ed25519Pub [2]), []⟩ =
      (.error "list of endpoints is empty", []) :=
  ((C8_no_endpoints (fun _ => .ok []) (fun _ _ => .ok [])
      (fun _ => .ok ⟨18⟩) (fun _ _ => .ok .empty)
      "testnet" "did:ex:123" "123" "unused" [] (by simp) rfl
      [] [] [] [] [] [] (.ed25519Priv [1]) (.ed25519Pub [2])
      (.ed25519Pub [3]) (.ed25519Pub [4]) "").1 rfl rfl).1

/-- C9: each operation fails with its distinct missing-key error when a
required key option is absent: CreateDID checks the recovery public key
("recovery public key is required") before the update public key
("update public key is required"); RecoverDID checks the next-recovery key
("next recovery public key is required") before the next-update key
("next update public key is required"), which it checks before the signing
key ("signing key is required"); UpdateDID and DeactivateDID require a
signing key ("signing public key is required" / "signing key is required").
Each conjunct leaves the later required keys unconstrained, which exhibits
the check ordering, and sends no request. -/
theorem C9_missing_keys (c : Client) (didURI domain : String)
    (hd : domain ≠ "")
    (osk ouk onk : Option CryptoKey) (rk sk nk : CryptoKey) (skid : String)
    (aPK pks : List PublicKey) (aS svcs : List Service)
    (rPK rS : List String) :
    createDID c domain ⟨pks, svcs, ouk, none, []⟩ =
        (.error "recovery public key is required", [])
    ∧ createDID c domain ⟨pks, svcs, none, some rk, []⟩ =
        (.error "update public key is required", [])
    ∧ recoverDID c didURI domain ⟨pks, svcs, osk, skid, onk, none, []⟩ =
        (.error "next recovery public key is required", [])
    ∧ recoverDID c didURI domain ⟨pks, svcs, osk, skid, none, some rk, []⟩ =
        (.error "next update public key is required", [])
    ∧ recoverDID c didURI domain
          ⟨pks, svcs, none, skid, some nk, some rk, []⟩ =
        (.error "signing key is required", [])
    ∧ updateDID c didURI domain ⟨aPK, aS, rPK, rS, none, skid, onk, []⟩ =
        (.error "signing public key is required", [])
    ∧ updateDID c didURI domain
          ⟨aPK, aS, rPK, rS, some sk, skid, none, []⟩ =
        (.error "next update public key is required", [])
    ∧ deactivateDID c didURI domain ⟨none, skid, []⟩ =
        (.error "signing key is required", []) := by
  refine ⟨?_, ?_, ?_, ?_, ?_, ?_, ?_, ?_⟩
  all_goals
    first
    | simp [createDID, hd]
    | simp [recoverDID, hd]
    | simp [updateDID, hd]
    | simp [deactivateDID, hd]

/-- C9 witness: the missing-key errors at concrete inputs (the scenarios of
the "key empty" unit tests). -/
theorem C9_missing_keys_witness :
    createDID mockClient "testnet" ⟨[], [], none, none, []⟩ =
        (.error "recovery public key is required", [])
    ∧ recoverDID mockClient "did:ex:123" "testnet"
          ⟨[], [], none, "", none, none, []⟩ =
        (.error "next recovery public key is required", [])
    ∧ deactivateDID mockClient "did:ex:123" "testnet" ⟨none, "", []⟩ =
        (.error "signing key is required", []) :=
  ⟨(C9_missing_keys mockClient "did:ex:123" "testnet" (by simp)
      none none none (.ed25519Pub [1]) (.ed25519Priv [2]) (.ed25519Pub [3])
      "" [] [] [] [] [] []).1,
   (C9_missing_keys mockClient "did:ex:123" "testnet" (by simp)
      none none none (.ed25519Pub [1]) (.ed25519Priv [2]) (.ed25519Pub [3])
      "" [] [] [] [] [] []).2.2.1,
   (C9_missing_keys mockClient "did:ex:123" "testnet" (by simp)
      none none none (.ed25519Pub [1]) (.ed25519Priv [2]) (.ed25519Pub [3])
      "" [] [] [] [] [] []).2.2.2.2.2.2.2⟩

/-- C10: in the update-did CLI command, the signing key and the next-update
key must each come from exactly one of the inline-PEM flag and the key-file
flag.  Provided the public-key file stage succeeded, if neither or both of
a pair are set, option parsing fails with an error that names both flags
(the strContains conjuncts), the engine's UpdateDID is never invoked — the
result is independent of the engine client and the request trace is
empty — and the same holds for the next-update pair once the signing pair
resolved. -/
theorem C10_cli_update_key_flags (env : CmdEnv) (f : UpdateCmdFlags)
    (c : Client) (didURI domain : String) (pks : List PublicKey)
    (hpk : env.publicKeysResult = .ok pks) :
    (f.signingKey = "" → f.signingKeyFile = "" →
      updateDIDCmdRun env f c didURI domain =
        (.error ("either key (--signingkey) or key file " ++
          "(--signingkey-file) is required"), []))
    ∧ (f.signingKey ≠ "" → f.signingKeyFile ≠ "" →
      updateDIDCmdRun env f c didURI domain =
        (.error ("only one of key (--signingkey) or key file " ++
          "(--signingkey-file) may be specified"), []))
    ∧ (∀ sk : CryptoKey,
      getKey env.loadSigningKey f.signingKey f.signingKeyFile
          signingKeyFlagName signingKeyFileFlagName = .ok sk →
      f.nextUpdateKey = "" → f.nextUpdateKeyFile = "" →
      updateDIDCmdRun env f c didURI domain =
        (.error ("either key (--nextupdatekey) or key file " ++
          "(--nextupdatekey-file) is required"), []))
    ∧ (∀ sk : CryptoKey,
      getKey env.loadSigningKey f.signingKey f.signingKeyFile
          signingKeyFlagName signingKeyFileFlagName = .ok sk →
      f.nextUpdateKey ≠ "" → f.nextUpdateKeyFile ≠ "" →
      updateDIDCmdRun env f c didURI domain =
        (.error ("only one of key (--nextupdatekey) or key file " ++
          "(--nextupdatekey-file) may be specified"), []))
    ∧ strContains
        "either key (--signingkey) or key file (--signingkey-file) is required"
        "--signingkey" = true
    ∧ strContains
        "either key (--signingkey) or key file (--signingkey-file) is required"
        "--signingkey-file" = true
    ∧ strContains
        ("only one of key (--nextupdatekey) or key file " ++
          "(--nextupdatekey-file) may be specified")
        "--nextupdatekey" = true
    ∧ strContains
        ("only one of key (--nextupdatekey) or key file " ++
          "(--nextupdatekey-file) may be specified")
        "--nextupdatekey-file" = true := by
  refine ⟨?_, ?_, ?_, ?_, by decide, by decide, by decide, by decide⟩
  · intro h1 h2
    simp [updateDIDCmdRun, updateDIDOption, hpk, getKey, h1, h2,
      signingKeyFlagName, signingKeyFileFlagName]
  · intro h1 h2
    simp [updateDIDCmdRun, updateDIDOption, hpk, getKey, h1, h2,
      signingKeyFlagName, signingKeyFileFlagName]
  · intro sk hsk h1 h2
    simp [updateDIDCmdRun, updateDIDOption, hpk, hsk]
    simp [getKey, h1, h2, nextUpdateKeyFlagName, nextUpdateKeyFileFlagName]
  · intro sk hsk h1 h2
    simp [updateDIDCmdRun, updateDIDOption, hpk, hsk]
    simp [getKey, h1, h2, nextUpdateKeyFlagName, nextUpdateKeyFileFlagName]

/-- C10 witness: with no signing-key flags set, the update-did command
fails during option parsing with the error naming both flags, for a
concrete environment and client. -/
theorem C10_cli_update_key_flags_witness :
    updateDIDCmdRun
        ⟨fun _ => .ok (.ed25519Priv [1]), fun _ => .ok (.ed25519Pub [2]),
         .ok [], .ok [], [], [], []⟩
        ⟨"", "", "pem", ""⟩ mockClient "did:ex:123" "testnet" =
      (.error ("either key (--signingkey) or key file " ++
        "(--signingkey-file) is required"), []) :=
  (C10_cli_update_key_flags
      ⟨fun _ => .ok (.ed25519Priv [1]), fun _ => .ok (.ed25519Pub [2]),
       .ok [], .ok [], [], [], []⟩
      ⟨"", "", "pem", ""⟩ mockClient "did:ex:123" "testnet" [] rfl).1 rfl rfl

end TrustBloc
